import Mathlib

/-!
Verification of the FinDocGPT heuristic analysis services.

The Python services are shallowly embedded as Lean functions over ℚ
(Python floats are idealized as exact rationals).  Each definition mirrors
one function of the repository; the theorems settle the frozen claims
about them.
-/

namespace FinDocGPT

/-!
## Strategy service
Embedding of app/services/financial/strategy_service.py.
-/

/-- The technical indicator dictionary produced by
`_analyze_technical_indicators`: the three price-vs-moving-average flags and
the volume flag are the strings written by that function, the numeric
indicators are rationals. -/
structure TechIndicators where
  price_vs_ma20 : String
  price_vs_ma50 : String
  price_vs_ma200 : String
  rsi : ℚ
  macd : ℚ
  macd_signal : ℚ
  volume_trend : String
  volatility : ℚ
deriving DecidableEq

/-- The fundamental metric dictionary produced by
`_analyze_fundamental_metrics`: `pe_ratio`, `pb_ratio` and `market_cap` may
be `None`; `dividend_yield` defaults to 0 and `beta` to 1.0, so they are
always numeric. -/
structure FundMetrics where
  pe_ratio : Option ℚ
  pb_ratio : Option ℚ
  dividend_yield : ℚ
  market_cap : Option ℚ
  beta : ℚ
deriving DecidableEq

/-- The moving-average sub-score of `_calculate_technical_score`
(lines 199-206): 0.33 + 0.33 + 0.34 for the 20/50/200-day checks. -/
def maScore (ind : TechIndicators) : ℚ :=
  (if ind.price_vs_ma20 = "above" then 33/100 else 0) +
  (if ind.price_vs_ma50 = "above" then 33/100 else 0) +
  (if ind.price_vs_ma200 = "above" then 34/100 else 0)

/-- `_calculate_technical_score` before its final `factors > 0` test: the
accumulated score together with the factor counter.  The five summands are
the sequential `score += ...` blocks of lines 195-243; each of the five
blocks runs `factors += 1` unconditionally, summed as `1+1+1+1+1`. -/
def calculate_technical_score_raw (ind : TechIndicators) : ℚ × ℕ :=
  (maScore ind * (3/10)
    + (if 30 ≤ ind.rsi ∧ ind.rsi ≤ 70 then 2/10
       else if ind.rsi < 30 then 3/10 else 1/10)
    + (if ind.macd_signal < ind.macd then 2/10 else 0)
    + (if ind.volume_trend = "high" then 15/100 else 75/1000)
    + (if ind.volatility < 3/10 then 15/100
       else if ind.volatility < 5/10 then 1/10 else 5/100),
   1 + 1 + 1 + 1 + 1)

/-- The final line `return score if factors > 0 else 0.5` shared by
`_calculate_technical_score` and `_calculate_fundamental_score`. -/
def scoreIfFactors (score : ℚ) (factors : ℕ) : ℚ :=
  if 0 < factors then score else 1/2

def calculate_technical_score (ind : TechIndicators) : ℚ :=
  scoreIfFactors (calculate_technical_score_raw ind).1 (calculate_technical_score_raw ind).2

/-- P/E bucket of `_calculate_fundamental_score` (weight 0.3). -/
def pe_bucket (pe : ℚ) : ℚ :=
  if pe < 15 then 3/10 else if pe < 25 then 2/10 else 1/10

/-- P/B bucket (weight 0.2). -/
def pb_bucket (pb : ℚ) : ℚ :=
  if pb < 3/2 then 2/10 else if pb < 3 then 15/100 else 1/10

/-- Dividend-yield bucket (weight 0.2). -/
def dividend_bucket (dy : ℚ) : ℚ :=
  if 3 < dy then 2/10 else if 1 < dy then 15/100 else 1/10

/-- Beta bucket (weight 0.15). -/
def beta_bucket (b : ℚ) : ℚ :=
  if b < 8/10 then 15/100 else if b < 12/10 then 1/10 else 5/100

/-- Market-cap bucket (weight 0.15); thresholds 10e9 and 2e9. -/
def market_cap_bucket (mc : ℚ) : ℚ :=
  if 10000000000 < mc then 15/100 else if 2000000000 < mc then 1/10 else 5/100

/-- Score term of an optional metric: a present metric contributes its
bucket value, a `None` metric contributes nothing (its `score += ...` line
is inside the `is not None` test). -/
def optTerm (f : ℚ → ℚ) : Option ℚ → ℚ
  | some x => f x
  | none => 0

/-- Factor count of an optional metric: the `factors += 1` line is inside
the `is not None` test. -/
def optCount : Option ℚ → ℕ
  | some _ => 1
  | none => 0

/-- `_calculate_fundamental_score` before its final `factors > 0` test
(lines 250-304): P/E, P/B and market cap are scored and counted only when
present; dividend yield and beta are always scored and counted. -/
def calculate_fundamental_score_raw (m : FundMetrics) : ℚ × ℕ :=
  (optTerm pe_bucket m.pe_ratio + optTerm pb_bucket m.pb_ratio
     + dividend_bucket m.dividend_yield + beta_bucket m.beta
     + optTerm market_cap_bucket m.market_cap,
   optCount m.pe_ratio + optCount m.pb_ratio + 1 + 1 + optCount m.market_cap)

def calculate_fundamental_score (m : FundMetrics) : ℚ :=
  scoreIfFactors (calculate_fundamental_score_raw m).1 (calculate_fundamental_score_raw m).2

/-- The score combination of `generate_recommendation` (lines 34-55):
each analysis score is 0 unless requested, then the composite is
technical*0.6 + fundamental*0.4 when both are requested, the single
requested score otherwise, and 0 when neither is requested. -/
def generate_recommendation_overall_score
    (ind : TechIndicators) (m : FundMetrics)
    (include_technical include_fundamental : Bool) : ℚ :=
  let technical_score := if include_technical then calculate_technical_score ind else 0
  let fundamental_score := if include_fundamental then calculate_fundamental_score m else 0
  if include_technical && include_fundamental then
    technical_score * (6/10) + fundamental_score * (4/10)
  else if include_technical then technical_score
  else if include_fundamental then fundamental_score
  else 0

/-- Buy threshold of `_generate_recommendation_from_score` per risk tolerance. -/
def buy_threshold (risk_tolerance : String) : ℚ :=
  if risk_tolerance = "low" then 7/10
  else if risk_tolerance = "high" then 6/10
  else 65/100

/-- Sell threshold of `_generate_recommendation_from_score` per risk tolerance. -/
def sell_threshold (risk_tolerance : String) : ℚ :=
  if risk_tolerance = "low" then 3/10
  else if risk_tolerance = "high" then 4/10
  else 35/100

structure Recommendation where
  action : String
  confidence : ℚ
deriving DecidableEq

/-- `_generate_recommendation_from_score` (lines 308-335). -/
def generate_recommendation_from_score (score : ℚ) (risk_tolerance : String) :
    Recommendation :=
  if buy_threshold risk_tolerance ≤ score then
    { action := "buy",
      confidence := min ((score - buy_threshold risk_tolerance)
        / (1 - buy_threshold risk_tolerance)) 1 }
  else if score ≤ sell_threshold risk_tolerance then
    { action := "sell",
      confidence := min ((sell_threshold risk_tolerance - score)
        / sell_threshold risk_tolerance) 1 }
  else
    { action := "hold", confidence := 1/2 }

lemma maScore_nonneg (ind : TechIndicators) : 0 ≤ maScore ind := by
  unfold maScore
  split_ifs <;> norm_num

lemma maScore_le_one (ind : TechIndicators) : maScore ind ≤ 1 := by
  unfold maScore
  split_ifs <;> norm_num

lemma technical_raw_bounds (ind : TechIndicators) :
    0 ≤ (calculate_technical_score_raw ind).1 ∧
      (calculate_technical_score_raw ind).1 ≤ 11/10 := by
  have h0 := maScore_nonneg ind
  have h1 := maScore_le_one ind
  unfold calculate_technical_score_raw
  dsimp only
  constructor <;> split_ifs <;> linarith

lemma pe_bucket_bounds (x : ℚ) : 1/10 ≤ pe_bucket x ∧ pe_bucket x ≤ 3/10 := by
  unfold pe_bucket
  split_ifs <;> norm_num

lemma pb_bucket_bounds (x : ℚ) : 1/10 ≤ pb_bucket x ∧ pb_bucket x ≤ 2/10 := by
  unfold pb_bucket
  split_ifs <;> norm_num

lemma dividend_bucket_bounds (x : ℚ) :
    1/10 ≤ dividend_bucket x ∧ dividend_bucket x ≤ 2/10 := by
  unfold dividend_bucket
  split_ifs <;> norm_num

lemma beta_bucket_bounds (x : ℚ) : 5/100 ≤ beta_bucket x ∧ beta_bucket x ≤ 15/100 := by
  unfold beta_bucket
  split_ifs <;> norm_num

lemma market_cap_bucket_bounds (x : ℚ) :
    5/100 ≤ market_cap_bucket x ∧ market_cap_bucket x ≤ 15/100 := by
  unfold market_cap_bucket
  split_ifs <;> norm_num

lemma optTerm_bounds (f : ℚ → ℚ) (c : ℚ) (hc : 0 ≤ c)
    (hf : ∀ x, 0 ≤ f x ∧ f x ≤ c) (o : Option ℚ) :
    0 ≤ optTerm f o ∧ optTerm f o ≤ c := by
  cases o with
  | none => exact ⟨le_refl 0, hc⟩
  | some x => exact (hf x)

lemma fundamental_raw_bounds (m : FundMetrics) :
    0 ≤ (calculate_fundamental_score_raw m).1 ∧
      (calculate_fundamental_score_raw m).1 ≤ 1 := by
  have hpe := optTerm_bounds pe_bucket (3/10) (by norm_num)
    (fun x => ⟨le_trans (by norm_num) (pe_bucket_bounds x).1, (pe_bucket_bounds x).2⟩)
    m.pe_ratio
  have hpb := optTerm_bounds pb_bucket (2/10) (by norm_num)
    (fun x => ⟨le_trans (by norm_num) (pb_bucket_bounds x).1, (pb_bucket_bounds x).2⟩)
    m.pb_ratio
  have hmc := optTerm_bounds market_cap_bucket (15/100) (by norm_num)
    (fun x => ⟨le_trans (by norm_num) (market_cap_bucket_bounds x).1,
      (market_cap_bucket_bounds x).2⟩)
    m.market_cap
  have hdy := dividend_bucket_bounds m.dividend_yield
  have hb := beta_bucket_bounds m.beta
  unfold calculate_fundamental_score_raw
  dsimp only
  constructor <;> linarith [hpe.1, hpe.2, hpb.1, hpb.2, hmc.1, hmc.2,
    hdy.1, hdy.2, hb.1, hb.2]

lemma technical_score_bounds (ind : TechIndicators) :
    0 ≤ calculate_technical_score ind ∧ calculate_technical_score ind ≤ 11/10 := by
  have h := technical_raw_bounds ind
  unfold calculate_technical_score scoreIfFactors
  split_ifs <;> constructor <;> first | exact h.1 | exact h.2 | norm_num

lemma fundamental_score_bounds (m : FundMetrics) :
    0 ≤ calculate_fundamental_score m ∧ calculate_fundamental_score m ≤ 1 := by
  have h := fundamental_raw_bounds m
  unfold calculate_fundamental_score scoreIfFactors
  split_ifs <;> constructor <;> first | exact h.1 | exact h.2 | norm_num

/-- A technical indicator dictionary where every bullish branch fires:
price above all three moving averages, RSI oversold, MACD above its
signal, high volume, low volatility. -/
def allBullishIndicators : TechIndicators :=
  { price_vs_ma20 := "above", price_vs_ma50 := "above", price_vs_ma200 := "above",
    rsi := 20, macd := 1, macd_signal := 0, volume_trend := "high", volatility := 1/10 }

/-- A fundamental metric dictionary with every optional metric missing. -/
def noFundMetrics : FundMetrics :=
  { pe_ratio := none, pb_ratio := none, dividend_yield := 0,
    market_cap := none, beta := 1 }

/-- C1 counterexample: with every bullish technical branch firing and only
technical analysis requested, the composite strategy score is 1.1, outside
the claimed interval [0,1] (the RSI oversold branch adds 0.3 against its
nominal 0.2 weight). -/
theorem C1_overall_score_above_one_cex :
    generate_recommendation_overall_score allBullishIndicators noFundMetrics true false
        = 11/10 ∧
      ¬ generate_recommendation_overall_score allBullishIndicators noFundMetrics true false
        ≤ 1 := by
  constructor <;>
    norm_num [generate_recommendation_overall_score, calculate_technical_score,
      calculate_technical_score_raw, scoreIfFactors, maScore, allBullishIndicators]

/-- C1 (amended): for every combination of technical indicator inputs,
fundamental metric inputs and inclusion flags, the composite strategy score
computed by `generate_recommendation` lies in the closed interval
[0, 1.1]. -/
theorem C1_overall_score_bounds
    (ind : TechIndicators) (m : FundMetrics)
    (include_technical include_fundamental : Bool) :
    0 ≤ generate_recommendation_overall_score ind m include_technical include_fundamental ∧
      generate_recommendation_overall_score ind m include_technical include_fundamental
        ≤ 11/10 := by
  have ht := technical_score_bounds ind
  have hf := fundamental_score_bounds m
  unfold generate_recommendation_overall_score
  cases include_technical <;> cases include_fundamental <;> simp <;>
    first
      | (constructor <;> linarith [ht.1, ht.2, hf.1, hf.2])
      | linarith [ht.1, ht.2, hf.1, hf.2]

lemma sell_lt_buy (rt : String) : sell_threshold rt < buy_threshold rt := by
  unfold sell_threshold buy_threshold
  split_ifs <;> norm_num

/-- C2: the strategy confidence is the linear distance of the score from
the relevant threshold normalized to the remaining headroom, capped at 1.0;
a score exactly at the buy threshold yields action "buy" with confidence 0,
and a hold decision always reports confidence 0.5. -/
theorem C2_confidence_formula (score : ℚ) (rt : String) :
    (buy_threshold rt ≤ score →
      (generate_recommendation_from_score score rt).action = "buy" ∧
        (generate_recommendation_from_score score rt).confidence =
          min ((score - buy_threshold rt) / (1 - buy_threshold rt)) 1) ∧
    (score ≤ sell_threshold rt →
      (generate_recommendation_from_score score rt).action = "sell" ∧
        (generate_recommendation_from_score score rt).confidence =
          min ((sell_threshold rt - score) / sell_threshold rt) 1) ∧
    ((generate_recommendation_from_score score rt).action = "hold" →
      (generate_recommendation_from_score score rt).confidence = 1/2) ∧
    (score = buy_threshold rt →
      (generate_recommendation_from_score score rt).action = "buy" ∧
        (generate_recommendation_from_score score rt).confidence = 0) := by
  have hlt := sell_lt_buy rt
  unfold generate_recommendation_from_score
  refine ⟨?_, ?_, ?_, ?_⟩
  · intro h
    rw [if_pos h]
    exact ⟨rfl, rfl⟩
  · intro h
    rw [if_neg (by push_neg; linarith), if_pos h]
    exact ⟨rfl, rfl⟩
  · intro h
    split_ifs at h ⊢ with h1 h2
    · dsimp only at h
      exact absurd h (by decide)
    · dsimp only at h
      exact absurd h (by decide)
    · rfl
  · intro h
    subst h
    rw [if_pos le_rfl]
    refine ⟨rfl, ?_⟩
    dsimp only
    rw [sub_self, zero_div]
    exact min_eq_left (by norm_num)

/-- C2 witness: at risk tolerance "low" and score exactly 0.70, the action
is "buy" and the confidence is 0. -/
theorem C2_confidence_at_threshold :
    (generate_recommendation_from_score (7/10) "low").action = "buy" ∧
      (generate_recommendation_from_score (7/10) "low").confidence = 0 :=
  (C2_confidence_formula (7/10) "low").2.2.2 (by simp [buy_threshold])

/-- C3: the action is "buy" iff the score is at least the buy threshold,
"sell" iff it is at most the sell threshold, "hold" otherwise; the
thresholds are 0.70/0.30 for "low", 0.60/0.40 for "high" and 0.65/0.35
for every other risk tolerance. -/
theorem C3_action_thresholds (score : ℚ) (rt : String) :
    ((generate_recommendation_from_score score rt).action = "buy" ↔
      buy_threshold rt ≤ score) ∧
    ((generate_recommendation_from_score score rt).action = "sell" ↔
      score ≤ sell_threshold rt) ∧
    ((generate_recommendation_from_score score rt).action = "hold" ↔
      sell_threshold rt < score ∧ score < buy_threshold rt) ∧
    (buy_threshold "low" = 7/10 ∧ sell_threshold "low" = 3/10) ∧
    (buy_threshold "high" = 6/10 ∧ sell_threshold "high" = 4/10) ∧
    (rt ≠ "low" → rt ≠ "high" →
      buy_threshold rt = 65/100 ∧ sell_threshold rt = 35/100) := by
  have hlt := sell_lt_buy rt
  refine ⟨?_, ?_, ?_,
    by constructor <;> simp [buy_threshold, sell_threshold],
    by constructor <;> simp [buy_threshold, sell_threshold], ?_⟩
  · unfold generate_recommendation_from_score
    split_ifs with h1 h2 <;> dsimp only
    · simpa using h1
    · constructor
      · intro h
        exact absurd h (by decide)
      · intro h
        linarith
    · constructor
      · intro h
        exact absurd h (by decide)
      · intro h
        exact absurd h h1
  · unfold generate_recommendation_from_score
    split_ifs with h1 h2 <;> dsimp only
    · constructor
      · intro h
        exact absurd h (by decide)
      · intro h
        linarith
    · simpa using h2
    · constructor
      · intro h
        exact absurd h (by decide)
      · intro h
        exact absurd h h2
  · unfold generate_recommendation_from_score
    split_ifs with h1 h2 <;> dsimp only
    · constructor
      · intro h
        exact absurd h (by decide)
      · intro h
        linarith
    · constructor
      · intro h
        exact absurd h (by decide)
      · intro h
        linarith
    · push_neg at h1 h2
      constructor
      · intro _
        exact ⟨h2, h1⟩
      · intro _
        rfl
  · intro hlo hhi
    unfold buy_threshold sell_threshold
    rw [if_neg hlo, if_neg hhi, if_neg hlo, if_neg hhi]
    exact ⟨rfl, rfl⟩

/-- C3 witness: a risk tolerance other than "low" and "high" uses the
medium thresholds 0.65 and 0.35. -/
theorem C3_medium_thresholds :
    buy_threshold "medium" = 65/100 ∧ sell_threshold "medium" = 35/100 :=
  (C3_action_thresholds (1/2) "medium").2.2.2.2.2 (by decide) (by decide)

/-!
## Anomaly detector
Embedding of app/services/ai/anomaly_detector.py.
-/

/-- One anomaly record appended by `_detect_metric_anomalies`.  The
float-only diagnostic fields (`expected_range`, `z_score`,
`percentage_change`, `description`) are presentation derived from the
fields kept here and are omitted; the z-score pass leaves
`previous_value` unset. -/
structure Anomaly where
  metric : String
  value : ℚ
  previous_value : Option ℚ
  anomaly_type : String
  severity : String
deriving DecidableEq

/-- `statistics.mean` of the extracted values. -/
def listMean (vs : List ℚ) : ℚ := vs.sum / vs.length

/-- The square of `statistics.stdev`: sample variance with divisor n-1. -/
def sampleVar (vs : List ℚ) : ℚ :=
  ((vs.map (fun v => (v - listMean vs)^2)).sum) / ((vs.length : ℚ) - 1)

/-- The z-score pass of `_detect_metric_anomalies` (lines 141-155).  The
source compares `z_score = abs((value - mean_val) / std_val)` against the
thresholds 2.0 and 3 after checking `std_val > 0`; since the standard
deviation is the square root of `sampleVar` and both sides of each
comparison are nonnegative, `z > c` is expressed by the equivalent
`(value - mean)^2 > c^2 * sampleVar`, keeping the embedding inside ℚ. -/
def statistical_outliers (metric_name : String) (values : List ℚ) : List Anomaly :=
  values.filterMap (fun v =>
    if 0 < sampleVar values ∧ 4 * sampleVar values < (v - listMean values)^2 then
      some { metric := metric_name, value := v, previous_value := none,
             anomaly_type := "statistical_outlier",
             severity :=
               if 9 * sampleVar values < (v - listMean values)^2 then "high"
               else "medium" }
    else none)

/-- The percentage-change pass of `_detect_metric_anomalies`
(lines 157-171): consecutive pairs, guarded by `values[i-1] != 0`, flag a
significant change when the absolute relative change exceeds the 0.2
threshold, with severity "high" above 0.5. -/
def significant_changes (metric_name : String) (values : List ℚ) : List Anomaly :=
  (values.zip values.tail).filterMap (fun p =>
    if p.1 ≠ 0 ∧ (2/10 : ℚ) < |(p.2 - p.1) / p.1| then
      some { metric := metric_name, value := p.2, previous_value := some p.1,
             anomaly_type := "significant_change",
             severity := if (1/2 : ℚ) < |(p.2 - p.1) / p.1| then "high" else "medium" }
    else none)

/-- `_detect_metric_anomalies` (lines 129-173): empty for fewer than two
values, otherwise the z-score anomalies followed by the
percentage-change anomalies. -/
def detect_metric_anomalies (metric_name : String) (values : List ℚ) : List Anomaly :=
  if values.length < 2 then []
  else statistical_outliers metric_name values ++ significant_changes metric_name values

/-- C4: on a series of length at least 2 with non-zero sample standard
deviation, every value more than 2 standard deviations from the mean is
flagged as a "statistical_outlier" with severity "high" beyond 3 standard
deviations and "medium" otherwise; a value exactly 3.5 standard deviations
away is flagged "high"; a value within 1 standard deviation is never
flagged as a statistical outlier. -/
theorem C4_outlier_flagging (name : String) (vs : List ℚ)
    (hlen : 2 ≤ vs.length) (hvar : 0 < sampleVar vs) :
    ∀ v ∈ vs,
      (4 * sampleVar vs < (v - listMean vs)^2 →
        ({ metric := name, value := v, previous_value := none,
           anomaly_type := "statistical_outlier",
           severity := if 9 * sampleVar vs < (v - listMean vs)^2 then "high"
             else "medium" } : Anomaly) ∈ detect_metric_anomalies name vs) ∧
      ((v - listMean vs)^2 = 49/4 * sampleVar vs →
        ({ metric := name, value := v, previous_value := none,
           anomaly_type := "statistical_outlier", severity := "high" } : Anomaly)
          ∈ detect_metric_anomalies name vs) ∧
      ((v - listMean vs)^2 ≤ sampleVar vs →
        ∀ a ∈ detect_metric_anomalies name vs,
          a.anomaly_type = "statistical_outlier" → a.value ≠ v) := by
  intro v hv
  have hne : ¬ vs.length < 2 := by omega
  refine ⟨?_, ?_, ?_⟩
  · intro h4
    unfold detect_metric_anomalies
    rw [if_neg hne]
    refine List.mem_append_left _ ?_
    unfold statistical_outliers
    refine List.mem_filterMap.mpr ⟨v, hv, ?_⟩
    rw [if_pos ⟨hvar, h4⟩]
  · intro heq
    have h4 : 4 * sampleVar vs < (v - listMean vs)^2 := by
      rw [heq]; linarith
    have h9 : 9 * sampleVar vs < (v - listMean vs)^2 := by
      rw [heq]; linarith
    unfold detect_metric_anomalies
    rw [if_neg hne]
    refine List.mem_append_left _ ?_
    unfold statistical_outliers
    refine List.mem_filterMap.mpr ⟨v, hv, ?_⟩
    rw [if_pos ⟨hvar, h4⟩, if_pos h9]
  · intro hle a ha hty
    unfold detect_metric_anomalies at ha
    rw [if_neg hne] at ha
    rcases List.mem_append.mp ha with hmem | hmem
    · unfold statistical_outliers at hmem
      rcases List.mem_filterMap.mp hmem with ⟨u, _, hfu⟩
      by_cases hcond : 0 < sampleVar vs ∧ 4 * sampleVar vs < (u - listMean vs)^2
      · rw [if_pos hcond] at hfu
        injection hfu with h
        subst h
        dsimp only
        intro huv
        subst huv
        have h2 := hcond.2
        linarith
      · rw [if_neg hcond] at hfu
        exact absurd hfu (by simp)
    · unfold significant_changes at hmem
      rcases List.mem_filterMap.mp hmem with ⟨p, _, hfp⟩
      by_cases hcond : p.1 ≠ 0 ∧ (2/10 : ℚ) < |(p.2 - p.1) / p.1|
      · rw [if_pos hcond] at hfp
        injection hfp with h
        subst h
        dsimp only at hty
        exact absurd hty (by decide)
      · rw [if_neg hcond] at hfp
        exact absurd hfp (by simp)

/-- A series of 15 values with mean 11 and sample variance 4: the value 4
sits exactly 3.5 sample standard deviations below the mean, the value 12
within half of one. -/
def c4_series : List ℚ :=
  [4, 11, 11, 11, 11, 11, 11, 11, 12, 12, 12, 12, 12, 12, 12]

lemma c4_series_mean : listMean c4_series = 11 := by
  norm_num [listMean, c4_series]

lemma c4_series_var : sampleVar c4_series = 4 := by
  unfold sampleVar
  simp only [c4_series_mean]
  norm_num [c4_series]

/-- C4 witness: in the concrete series, the value 4 lies exactly 3.5
sample standard deviations from the mean and is flagged as a
"statistical_outlier" with severity "high". -/
theorem C4_outlier_witness :
    (2 ≤ c4_series.length ∧ 0 < sampleVar c4_series ∧
      (4 - listMean c4_series)^2 = 49/4 * sampleVar c4_series) ∧
    ({ metric := "revenue", value := 4, previous_value := none,
       anomaly_type := "statistical_outlier", severity := "high" } : Anomaly)
      ∈ detect_metric_anomalies "revenue" c4_series := by
  constructor
  · refine ⟨by decide, ?_, ?_⟩
    · rw [c4_series_var]
      norm_num
    · rw [c4_series_var, c4_series_mean]
      norm_num
  · refine (C4_outlier_flagging "revenue" c4_series (by decide) ?_ 4 ?_).2.1 ?_
    · rw [c4_series_var]
      norm_num
    · decide
    · rw [c4_series_var, c4_series_mean]
      norm_num

/-- Severity weight dictionary of `_calculate_risk_score` together with
the `.get(..., 0.6)` default for unknown severities (lines 182-184). -/
def severity_weight (s : String) : ℚ :=
  if s = "low" then 3/10 else if s = "medium" then 6/10
  else if s = "high" then 1 else 6/10

/-- `_calculate_risk_score` (lines 175-189): 0.0 for no anomalies,
otherwise the severity-weight total over `total_metrics * 2`, capped
at 1.0. -/
def calculate_risk_score (anomalies : List Anomaly) (total_metrics : ℕ) : ℚ :=
  if anomalies.isEmpty then 0
  else min ((anomalies.map (fun a => severity_weight a.severity)).sum
    / ((total_metrics : ℚ) * 2)) 1

/-- Stated from the claim wording: low 0.3, medium 0.6, high 1.0,
defaulting to 0.6 for unknown severities. -/
def severity_weight_claim (s : String) : ℚ :=
  if s = "low" then 3/10 else if s = "high" then 1 else 6/10

/-- Stated from the claim wording: the sum of per-anomaly severity weights
divided by (2 × the number of metric categories examined), capped at 1.0,
and 0.0 when the anomaly list is empty. -/
def risk_score_claim (anomalies : List Anomaly) (n : ℕ) : ℚ :=
  if anomalies = [] then 0
  else min ((anomalies.foldl (fun acc a => acc + severity_weight_claim a.severity) 0)
    / (2 * (n : ℚ))) 1

lemma severity_weight_eq (s : String) :
    severity_weight s = severity_weight_claim s := by
  by_cases h1 : s = "low"
  · simp [severity_weight, severity_weight_claim, h1]
  · by_cases h2 : s = "medium"
    · subst h2
      simp [severity_weight, severity_weight_claim]
    · by_cases h3 : s = "high"
      · subst h3
        simp [severity_weight, severity_weight_claim]
      · simp [severity_weight, severity_weight_claim, h1, h2, h3]

lemma foldl_weight (l : List Anomaly) (init : ℚ) :
    l.foldl (fun acc a => acc + severity_weight_claim a.severity) init =
      init + (l.map (fun a => severity_weight_claim a.severity)).sum := by
  induction l generalizing init with
  | nil => simp
  | cons a l ih =>
    simp only [List.foldl_cons, List.map_cons, List.sum_cons, ih]
    ring

/-- C6: for every anomaly list and positive count of metric categories,
the aggregate risk score equals the sum of per-anomaly severity weights
(low 0.3, medium 0.6, high 1.0, default 0.6) divided by twice the count,
capped at 1.0, and equals 0.0 for an empty anomaly list. -/
theorem C6_risk_score_formula (anomalies : List Anomaly) (n : ℕ) (_hn : 0 < n) :
    calculate_risk_score anomalies n = risk_score_claim anomalies n ∧
      calculate_risk_score [] n = 0 := by
  constructor
  · unfold calculate_risk_score risk_score_claim
    by_cases h : anomalies = []
    · subst h
      simp
    · rw [if_neg (by simpa [List.isEmpty_iff] using h), if_neg h]
      have hsum : (anomalies.map (fun a => severity_weight a.severity)).sum =
          anomalies.foldl (fun acc a => acc + severity_weight_claim a.severity) 0 := by
        rw [foldl_weight, zero_add]
        exact congrArg List.sum
          (List.map_congr_left (fun a _ => severity_weight_eq a.severity))
      rw [hsum, mul_comm ((n : ℚ)) 2]
  · simp [calculate_risk_score]

/-- A single high-severity anomaly, as produced by the z-score pass. -/
def c6_anomalies : List Anomaly :=
  [{ metric := "revenue", value := 5, previous_value := none,
     anomaly_type := "statistical_outlier", severity := "high" }]

/-- C6 witness: with one high-severity anomaly over the 8 metric
categories the detector examines, both formulations agree. -/
theorem C6_risk_score_witness :
    calculate_risk_score c6_anomalies 8 = risk_score_claim c6_anomalies 8 :=
  (C6_risk_score_formula c6_anomalies 8 (by decide)).1

/-- C10: a "significant_change" anomaly always records a non-zero, present
previous value: the percentage-change computation is guarded by
`values[i-1] != 0`, so an adjacent pair whose previous value is exactly 0
never produces a flag, regardless of the following value. -/
theorem C10_zero_previous_guard (name : String) (vs : List ℚ) (a : Anomaly)
    (ha : a ∈ detect_metric_anomalies name vs)
    (hty : a.anomaly_type = "significant_change") :
    a.previous_value ≠ some 0 ∧ a.previous_value ≠ none := by
  unfold detect_metric_anomalies at ha
  by_cases hlen : vs.length < 2
  · rw [if_pos hlen] at ha
    exact absurd ha (List.not_mem_nil a)
  · rw [if_neg hlen] at ha
    rcases List.mem_append.mp ha with hmem | hmem
    · unfold statistical_outliers at hmem
      rcases List.mem_filterMap.mp hmem with ⟨u, _, hfu⟩
      by_cases hcond : 0 < sampleVar vs ∧ 4 * sampleVar vs < (u - listMean vs)^2
      · rw [if_pos hcond] at hfu
        injection hfu with h
        subst h
        dsimp only at hty
        exact absurd hty (by decide)
      · rw [if_neg hcond] at hfu
        exact absurd hfu (by simp)
    · unfold significant_changes at hmem
      rcases List.mem_filterMap.mp hmem with ⟨p, _, hfp⟩
      by_cases hcond : p.1 ≠ 0 ∧ (2/10 : ℚ) < |(p.2 - p.1) / p.1|
      · rw [if_pos hcond] at hfp
        injection hfp with h
        subst h
        dsimp only
        constructor
        · intro hcontra
          injection hcontra with h0
          exact hcond.1 h0
        · exact Option.some_ne_none p.1
      · rw [if_neg hcond] at hfp
        exact absurd hfp (by simp)

lemma c10_eval : detect_metric_anomalies "profit" [1, 2] =
    [{ metric := "profit", value := 2, previous_value := some 1,
       anomaly_type := "significant_change", severity := "high" }] := by
  norm_num [detect_metric_anomalies, statistical_outliers, significant_changes,
    sampleVar, listMean, List.filterMap]

/-- C10 witness: the pair (1, 2) yields a significant-change anomaly whose
recorded previous value is present and non-zero. -/
theorem C10_zero_previous_witness :
    ({ metric := "profit", value := 2, previous_value := some 1,
       anomaly_type := "significant_change", severity := "high" } : Anomaly).previous_value
        ≠ some 0 ∧
      ({ metric := "profit", value := 2, previous_value := some 1,
         anomaly_type := "significant_change", severity := "high" } : Anomaly).previous_value
        ≠ none :=
  C10_zero_previous_guard "profit" [1, 2] _
    (by rw [c10_eval]; exact List.mem_singleton.mpr rfl) rfl

/-!
## Forecast service
Embedding of app/services/financial/forecast_service.py.
-/

/-- One daily OHLCV bar of the historical data. -/
structure Bar where
  open_price : ℚ
  high : ℚ
  low : ℚ
  close : ℚ
  volume : ℚ
deriving DecidableEq

/-- One entry of the 5-day projection list. -/
structure Prediction where
  predicted_price : ℚ
  confidence_lower : ℚ
  confidence_upper : ℚ
deriving DecidableEq

/-- The `accuracy_metrics` map of a forecast result: empty, a single
error message, or the fitted holdout metrics. -/
inductive AccMetrics where
  | emptyMap : AccMetrics
  | errorMsg (msg : String) : AccMetrics
  | fitted (rmse mae r2 : ℚ) : AccMetrics
deriving DecidableEq

/-- The result dictionary of `generate_forecast`; `confidence_interval`
and `historical_data` are derived from `predictions` and the input bars
and are omitted. -/
structure ForecastResult where
  predicted_value : ℚ
  predictions : List Prediction
  model_used : String
  accuracy_metrics : AccMetrics
deriving DecidableEq

/-- `_empty_forecast_result` (lines 268-277): zero prediction, no
predictions, and the error message "No data available" in the metrics. -/
def empty_forecast_result (model_type : String) : ForecastResult :=
  { predicted_value := 0, predictions := [], model_used := model_type,
    accuracy_metrics := .errorMsg "No data available" }

/-- The empty-data early return of `generate_forecast` (lines 30-38):
zero prediction, no predictions, and an *empty* accuracy-metrics map. -/
def empty_data_result (model_type : String) : ForecastResult :=
  { predicted_value := 0, predictions := [], model_used := model_type,
    accuracy_metrics := .emptyMap }

/-- The `except` branch of `generate_forecast` (lines 50-58): zero
prediction, no predictions, and the exception text in the metrics. -/
def exception_result (model_type : String) (e : String) : ForecastResult :=
  { predicted_value := 0, predictions := [], model_used := model_type,
    accuracy_metrics := .errorMsg e }

/-- Number of rows surviving `dropna()` after the feature derivation of
`_forecast_stock_price` (lines 96-102): `Returns` is NaN on row 0, `MA5`
before row 4, `MA20` before row 19, and the rolling 20-day standard
deviation of `Returns` before row 20 (its window reaches the NaN at
row 0 through row 19), so exactly the first 20 rows are dropped. -/
def usable_feature_rows (n : ℕ) : ℕ := n - 20

/-- `_forecast_stock_price` (lines 89-170).  The two degenerate branches
(no bars, fewer than 10 usable feature rows) are concrete; the
non-degenerate branch fits the regression and draws unseeded Gaussian
noise for the 5-day projection, so its value is abstracted by the
`success` parameter. -/
def forecast_stock_price (bars : List Bar) (model_type : String)
    (success : ForecastResult) : ForecastResult :=
  if bars.isEmpty then empty_forecast_result model_type
  else if usable_feature_rows bars.length < 10 then empty_forecast_result model_type
  else success

/-- `generate_forecast` (lines 17-58) on the stock-price path: the fetch
of historical data and the forecasting core both run inside one
`try`/`except`, modelled by `Except String`; an empty fetched frame
returns the zero result with an empty metrics map before the core runs.
The "earnings" and "revenue" dispatch targets are not modelled; the
default dispatch goes to `_forecast_stock_price`. -/
def generate_forecast (fetch : Except String (List Bar)) (model_type : String)
    (core : List Bar → Except String ForecastResult) : ForecastResult :=
  match fetch.bind (fun data =>
    if data.isEmpty then Except.ok (empty_data_result model_type)
    else core data) with
  | .ok r => r
  | .error e => exception_result model_type e

/-- A stand-in value for the non-degenerate forecasting branch. -/
def some_success : ForecastResult :=
  { predicted_value := 123, predictions := [], model_used := "linear",
    accuracy_metrics := .fitted 1 1 1 }

/-- Whether the accuracy-metrics map carries an error message. -/
def AccMetrics.hasError : AccMetrics → Bool
  | .errorMsg _ => true
  | _ => false

/-- C7 counterexample: for a request whose fetched historical data is
empty, the result has predicted value 0 and no predictions but *no* error
message embedded in the accuracy-metrics map (the map is empty),
contradicting the claim that all three degenerate cases embed one. -/
theorem C7_empty_data_no_error_message_cex :
    (generate_forecast (Except.ok []) "linear"
        (fun d => Except.ok (forecast_stock_price d "linear" some_success))).predicted_value
        = 0 ∧
      (generate_forecast (Except.ok []) "linear"
        (fun d => Except.ok (forecast_stock_price d "linear" some_success))).predictions
        = [] ∧
      (generate_forecast (Except.ok []) "linear"
        (fun d => Except.ok (forecast_stock_price d "linear" some_success))).accuracy_metrics.hasError
        = false := by
  refine ⟨rfl, rfl, rfl⟩

/-- C7 (amended): `generate_forecast` never raises (it is total and every
branch returns a `ForecastResult`); when the fetched data is empty it
returns the zero result with an *empty* accuracy-metrics map; when fewer
than 10 usable feature rows remain it returns the canonical empty result
whose metrics carry the message "No data available"; when an exception
occurs the zero result carries the exception text. -/
theorem C7_degenerate_forecast_results (model_type e : String) (bars : List Bar)
    (success : ForecastResult)
    (core : List Bar → Except String ForecastResult)
    (hne : bars ≠ []) (hfew : usable_feature_rows bars.length < 10) :
    generate_forecast (Except.ok []) model_type core = empty_data_result model_type ∧
      (empty_data_result model_type).predicted_value = 0 ∧
      (empty_data_result model_type).predictions = [] ∧
      (empty_data_result model_type).accuracy_metrics = .emptyMap ∧
      generate_forecast (Except.ok bars) model_type
          (fun d => Except.ok (forecast_stock_price d model_type success)) =
        empty_forecast_result model_type ∧
      (empty_forecast_result model_type).predicted_value = 0 ∧
      (empty_forecast_result model_type).predictions = [] ∧
      (empty_forecast_result model_type).accuracy_metrics = .errorMsg "No data available" ∧
      generate_forecast (Except.error e) model_type core = exception_result model_type e ∧
      (exception_result model_type e).predicted_value = 0 ∧
      (exception_result model_type e).predictions = [] ∧
      (exception_result model_type e).accuracy_metrics = .errorMsg e := by
  refine ⟨rfl, rfl, rfl, rfl, ?_, rfl, rfl, rfl, rfl, rfl, rfl, rfl⟩
  cases bars with
  | nil => exact absurd rfl hne
  | cons b l =>
    show (if usable_feature_rows (b :: l).length < 10 then
        empty_forecast_result model_type else success) = empty_forecast_result model_type
    rw [if_pos hfew]

/-- A list of 25 identical bars: 25 - 20 = 5 usable feature rows, below
the minimum of 10. -/
def c7_bars : List Bar :=
  List.replicate 25 { open_price := 1, high := 1, low := 1, close := 1, volume := 1 }

/-- C7 witness: 25 raw bars leave 5 usable feature rows, and the forecast
for them is the canonical empty result. -/
theorem C7_degenerate_forecast_witness :
    c7_bars ≠ [] ∧ usable_feature_rows c7_bars.length < 10 ∧
      generate_forecast (Except.ok c7_bars) "linear"
          (fun d => Except.ok (forecast_stock_price d "linear" some_success)) =
        empty_forecast_result "linear" := by
  refine ⟨by decide, by decide, ?_⟩
  exact (C7_degenerate_forecast_results "linear" "e" c7_bars some_success
    (fun d => Except.ok (forecast_stock_price d "linear" some_success))
    (by decide) (by decide)).2.2.2.2.1

/-- The chronological split index `int(len(data) * 0.8)` of
`_forecast_stock_price` (line 112); the argument is nonnegative, so the
Python truncation is the floor. -/
def train_test_split_idx (n : ℕ) : ℕ := Nat.floor ((n : ℚ) * (8/10))

/-- The train/test split of `_forecast_stock_price` (lines 113-114):
`X[:split_idx]` and `X[split_idx:]`. -/
def chronological_split {α : Type} (rows : List α) : List α × List α :=
  (rows.take (train_test_split_idx rows.length),
   rows.drop (train_test_split_idx rows.length))

lemma train_test_split_idx_eq (n : ℕ) : train_test_split_idx n = 8 * n / 10 := by
  unfold train_test_split_idx
  rw [show ((n : ℚ) * (8/10)) = ((8 * n : ℕ) : ℚ) / ((10 : ℕ) : ℚ) by push_cast; ring]
  exact Nat.floor_div_eq_div (8 * n) 10

/-- C8: for every usable feature-row count N ≥ 10, the chronological split
uses exactly the first floor(0.8 × N) rows for training and the remaining
N − floor(0.8 × N) rows as the holdout, and concatenating the two parts
gives back the original row order (no shuffling). -/
theorem C8_chronological_split {α : Type} (rows : List α)
    (hlen : 10 ≤ rows.length) :
    (chronological_split rows).1.length = 8 * rows.length / 10 ∧
      (chronological_split rows).2.length = rows.length - 8 * rows.length / 10 ∧
      (chronological_split rows).1 ++ (chronological_split rows).2 = rows := by
  unfold chronological_split
  rw [train_test_split_idx_eq]
  refine ⟨?_, ?_, ?_⟩
  · rw [List.length_take]
    omega
  · rw [List.length_drop]
  · exact List.take_append_drop _ rows

/-- C8 witness: ten rows split into the first 8 for training and the last
2 as the holdout, in order. -/
theorem C8_split_witness :
    (chronological_split [0, 1, 2, 3, 4, 5, 6, 7, 8, 9]).1.length = 8 ∧
      (chronological_split [0, 1, 2, 3, 4, 5, 6, 7, 8, 9]).2.length = 2 ∧
      (chronological_split [0, 1, 2, 3, 4, 5, 6, 7, 8, 9]).1 ++
          (chronological_split [0, 1, 2, 3, 4, 5, 6, 7, 8, 9]).2 =
        [0, 1, 2, 3, 4, 5, 6, 7, 8, 9] := by
  obtain ⟨h1, h2, h3⟩ :=
    C8_chronological_split [0, 1, 2, 3, 4, 5, 6, 7, 8, 9] (by decide)
  exact ⟨h1, h2, h3⟩

/-- Stated from the claim wording for C5: the list of score terms of the
*included* factors — a missing (None) metric contributes no entry, so it
adds nothing to the score sum and nothing to the factor count. -/
def fundamental_included_terms (m : FundMetrics) : List ℚ :=
  (m.pe_ratio.map pe_bucket).toList ++ (m.pb_ratio.map pb_bucket).toList ++
    [dividend_bucket m.dividend_yield, beta_bucket m.beta] ++
    (m.market_cap.map market_cap_bucket).toList

/-- C5: a missing (None) metric contributes no term to the fundamental
score and is excluded from the factor count (the accumulated pair is the
sum and length of the included-factor terms); the `factors > 0` guard
returns the neutral 0.5 when no factor was computed and the plain score
otherwise; both score functions return their accumulated score (their
factor counts are always positive). -/
theorem C5_fundamental_factor_accounting :
    (∀ m : FundMetrics, calculate_fundamental_score_raw m =
      ((fundamental_included_terms m).sum, (fundamental_included_terms m).length)) ∧
    (∀ s : ℚ, scoreIfFactors s 0 = 1/2) ∧
    (∀ (s : ℚ) (f : ℕ), 0 < f → scoreIfFactors s f = s) ∧
    (∀ m : FundMetrics,
      calculate_fundamental_score m = (calculate_fundamental_score_raw m).1) ∧
    (∀ ind : TechIndicators,
      calculate_technical_score ind = (calculate_technical_score_raw ind).1) := by
  refine ⟨?_, ?_, ?_, ?_, ?_⟩
  · intro m
    obtain ⟨pe, pb, dy, mc, b⟩ := m
    cases pe <;> cases pb <;> cases mc <;>
      simp [calculate_fundamental_score_raw, fundamental_included_terms,
        optTerm, optCount, Option.toList] <;>
      ring
  · intro s
    rfl
  · intro s f hf
    unfold scoreIfFactors
    rw [if_pos hf]
  · intro m
    obtain ⟨pe, pb, dy, mc, b⟩ := m
    cases pe <;> cases pb <;> cases mc <;>
      simp [calculate_fundamental_score, calculate_fundamental_score_raw,
        scoreIfFactors, optCount]
  · intro ind
    have h5 : 0 < (calculate_technical_score_raw ind).2 := by
      unfold calculate_technical_score_raw
      norm_num
    unfold calculate_technical_score scoreIfFactors
    rw [if_pos h5]

/-- A fundamental metric dictionary with only the P/E ratio present among
the optional metrics. -/
def c5_metrics : FundMetrics :=
  { pe_ratio := some 10, pb_ratio := none, dividend_yield := 0,
    market_cap := none, beta := 1 }

/-- C5 witness: for a dictionary missing P/B and market cap, the
accumulated pair is the sum and count of the three included factors, and
the final guard passes a positive factor count through unchanged. -/
theorem C5_factor_accounting_witness :
    calculate_fundamental_score_raw c5_metrics =
        ((fundamental_included_terms c5_metrics).sum,
          (fundamental_included_terms c5_metrics).length) ∧
      (0 : ℕ) < 3 ∧ scoreIfFactors (7/10) 3 = 7/10 :=
  ⟨C5_fundamental_factor_accounting.1 c5_metrics, by decide,
    C5_fundamental_factor_accounting.2.2.1 (7/10) 3 (by decide)⟩

/-!
## Mock SEC data generator
Embedding of `generate_mock_sec_data` in python_backend/main.py
(lines 891-1144).  The Python `random` module is a global pseudo-random
state: it is modelled by an abstract state type `S` with the operations
the function uses (`random.seed`, `random.uniform`, `random.choice`),
and MD5 by an abstract hash function, since the claims are about the
seeding discipline, not the bit-level generator.  Monetary quantities are
kept as rationals in billions; the `format_currency` string rendering and
the `totalAssets`/`totalDebt` fields it feeds (revenue × 2 and
revenue / 3 after a format-and-reparse round trip) are presentation
derived from the values kept here, as are the canned `bullCase`,
`bearCase`, `keyRisks` lists, the ticker-derived `executiveSummary` and
`sourceLinks`, the constant `confidence`/`dataSource` entries and the
`analystEstimates` block (ticker and P/E derived).  The return dict also
reads the wall clock: `filingDate`, `quarter` and `lastUpdated` come from
`datetime.now()`, modelled by an explicit `DateTime` argument below. -/

structure RandomModel (S : Type) where
  seed : ℕ → S
  uniform : ℚ → ℚ → S → ℚ × S
  choice : List String → S → String × S

/-- One reading of `datetime.now()`: the calendar fields the function
formats, plus `iso`, its full `isoformat()` rendering.  `isoformat()` has
microsecond resolution, so two distinct call instants have distinct `iso`
strings.  The several `datetime.now()` reads inside one Python call are
idealized as a single reading. -/
structure DateTime where
  year : ℕ
  month : ℕ
  day : ℕ
  iso : String
deriving DecidableEq

/-- Two-digit zero padding, as in `strftime` month and day fields. -/
def pad2 (n : ℕ) : String := if n < 10 then "0" ++ toString n else toString n

/-- `datetime.now().strftime('%Y-%m-%d')` for the `filingDate` field. -/
def format_filing_date (t : DateTime) : String :=
  toString t.year ++ "-" ++ pad2 t.month ++ "-" ++ pad2 t.day

/-- `f"Q{((datetime.now().month-1)//3)+1} {datetime.now().year}"` for the
`quarter` field. -/
def format_quarter (t : DateTime) : String :=
  "Q" ++ toString ((t.month - 1) / 3 + 1) ++ " " ++ toString t.year

structure MockSECData where
  symbol : String
  name : String
  sector : String
  industry : String
  market_cap : ℚ
  revenue : ℚ
  net_income : ℚ
  pe_ratio : ℚ
  roe : ℚ
  debt_to_equity : ℚ
  current_ratio : ℚ
  operating_margin : ℚ
  gross_margin : ℚ
  free_cash_flow : ℚ
  filing_date : String
  quarter : String
  last_updated : String
deriving DecidableEq

/-- The company-name suffix pool for unknown tickers. -/
def mock_suffixes : List String :=
  ["Inc.", "Corporation", "Corp.", "Company", "Ltd.", "LLC"]

/-- The hard-coded `sector_mapping` table: ticker, sector, industry,
company name. -/
def sector_mapping : List (String × String × String × String) :=
  [("AAPL", "Technology", "Consumer Electronics", "Apple Inc."),
   ("MSFT", "Technology", "Software", "Microsoft Corporation"),
   ("GOOGL", "Communication Services", "Internet Services", "Alphabet Inc."),
   ("AMZN", "Consumer Discretionary", "E-commerce", "Amazon.com Inc."),
   ("TSLA", "Consumer Discretionary", "Automotive", "Tesla Inc."),
   ("META", "Communication Services", "Social Media", "Meta Platforms Inc."),
   ("NVDA", "Technology", "Semiconductors", "NVIDIA Corporation"),
   ("NFLX", "Communication Services", "Entertainment", "Netflix Inc."),
   ("JPM", "Financials", "Banking", "JPMorgan Chase & Co."),
   ("BAC", "Financials", "Banking", "Bank of America Corp."),
   ("WFC", "Financials", "Banking", "Wells Fargo & Company"),
   ("GS", "Financials", "Investment Banking", "Goldman Sachs Group Inc."),
   ("MS", "Financials", "Investment Banking", "Morgan Stanley"),
   ("JNJ", "Healthcare", "Pharmaceuticals", "Johnson & Johnson"),
   ("PFE", "Healthcare", "Pharmaceuticals", "Pfizer Inc."),
   ("UNH", "Healthcare", "Health Insurance", "UnitedHealth Group Inc."),
   ("ABBV", "Healthcare", "Biotechnology", "AbbVie Inc."),
   ("KO", "Consumer Staples", "Beverages", "The Coca-Cola Company"),
   ("PEP", "Consumer Staples", "Beverages", "PepsiCo Inc."),
   ("WMT", "Consumer Staples", "Retail", "Walmart Inc."),
   ("HD", "Consumer Discretionary", "Home Improvement", "The Home Depot Inc."),
   ("XOM", "Energy", "Oil & Gas", "Exxon Mobil Corporation"),
   ("CVX", "Energy", "Oil & Gas", "Chevron Corporation"),
   ("BA", "Industrials", "Aerospace", "The Boeing Company"),
   ("CAT", "Industrials", "Construction Equipment", "Caterpillar Inc.")]

/-- The fallback sector list indexed by `seed_value % 10`. -/
def default_sectors : List (String × String) :=
  [("Technology", "Software"), ("Healthcare", "Biotechnology"),
   ("Financials", "Banking"), ("Consumer Discretionary", "Retail"),
   ("Industrials", "Manufacturing"), ("Energy", "Oil & Gas"),
   ("Communication Services", "Media"), ("Consumer Staples", "Food & Beverages"),
   ("Utilities", "Electric Utilities"), ("Real Estate", "REITs")]

/-- The Python `pat in ticker` substring test. -/
def contains_sub (s pat : String) : Bool := (s.splitOn pat).length != 1

def tech_tokens : List String := ["TECH", "SOFT", "DATA", "COMP", "SYS"]

def fin_tokens : List String := ["BANK", "FIN", "CAP", "FUND"]

def health_tokens : List String := ["MED", "BIO", "PHARMA", "HEALTH"]

def energy_tokens : List String := ["OIL", "GAS", "ENERGY"]

/-- `sector_ranges` for the market-cap draw, in billions; default
(10, 500). -/
def sector_cap_range (sector : String) : ℚ × ℚ :=
  if sector = "Technology" then (50, 3000)
  else if sector = "Healthcare" then (20, 500)
  else if sector = "Financials" then (30, 600)
  else if sector = "Consumer Discretionary" then (10, 1500)
  else if sector = "Communication Services" then (25, 2000)
  else if sector = "Industrials" then (15, 300)
  else if sector = "Energy" then (20, 400)
  else if sector = "Consumer Staples" then (30, 400)
  else if sector = "Utilities" then (10, 150)
  else if sector = "Real Estate" then (5, 100)
  else (10, 500)

/-- `margin_ranges` for the net-margin draw; default (0.08, 0.20). -/
def margin_range (sector : String) : ℚ × ℚ :=
  if sector = "Technology" then (15/100, 35/100)
  else if sector = "Healthcare" then (10/100, 25/100)
  else if sector = "Financials" then (20/100, 30/100)
  else if sector = "Consumer Discretionary" then (5/100, 15/100)
  else if sector = "Communication Services" then (10/100, 25/100)
  else if sector = "Industrials" then (5/100, 15/100)
  else if sector = "Energy" then (5/100, 20/100)
  else if sector = "Consumer Staples" then (5/100, 12/100)
  else if sector = "Utilities" then (8/100, 15/100)
  else if sector = "Real Estate" then (15/100, 30/100)
  else (8/100, 20/100)

/-- `pe_ranges` for the P/E draw; default (15, 25). -/
def pe_range (sector : String) : ℚ × ℚ :=
  if sector = "Technology" then (20, 45)
  else if sector = "Healthcare" then (15, 30)
  else if sector = "Financials" then (8, 18)
  else if sector = "Consumer Discretionary" then (15, 35)
  else if sector = "Communication Services" then (15, 30)
  else if sector = "Industrials" then (12, 25)
  else if sector = "Energy" then (8, 20)
  else if sector = "Consumer Staples" then (15, 25)
  else if sector = "Utilities" then (12, 20)
  else if sector = "Real Estate" then (10, 25)
  else (15, 25)

/-- `roe_ranges` for the ROE draw; default (10, 20). -/
def roe_range (sector : String) : ℚ × ℚ :=
  if sector = "Technology" then (15, 35)
  else if sector = "Healthcare" then (12, 25)
  else if sector = "Financials" then (8, 20)
  else if sector = "Consumer Discretionary" then (10, 25)
  else if sector = "Communication Services" then (10, 25)
  else if sector = "Industrials" then (8, 20)
  else if sector = "Energy" then (5, 15)
  else if sector = "Consumer Staples" then (15, 30)
  else if sector = "Utilities" then (8, 15)
  else if sector = "Real Estate" then (5, 15)
  else (10, 20)

/-- Sector, industry and company name: the table lookup, the ticker
pattern checks, the hash-indexed fallback, and — for unknown tickers
only — the `random.choice` suffix draw. -/
def mock_sector_info {S : Type} (R : RandomModel S) (seed_value : ℕ)
    (t : String) (s : S) : (String × String × String) × S :=
  match sector_mapping.find? (fun e => e.1 == t) with
  | some e => ((e.2.1, e.2.2.1, e.2.2.2), s)
  | none =>
    let si :=
      if tech_tokens.any (fun p => contains_sub t p) then
        ("Technology", "Software")
      else if fin_tokens.any (fun p => contains_sub t p) then
        ("Financials", "Financial Services")
      else if health_tokens.any (fun p => contains_sub t p) then
        ("Healthcare", "Healthcare Services")
      else if energy_tokens.any (fun p => contains_sub t p) then
        ("Energy", "Oil & Gas")
      else default_sectors.getD (seed_value % default_sectors.length)
        ("Technology", "Software")
    let c := R.choice mock_suffixes s
    ((si.1, si.2, t ++ " " ++ c.1), c.2)

/-- `generate_mock_sec_data`: the pseudo-random state is re-seeded from
the MD5 hash of the uppercased ticker before any draw (the incoming state
`_s0` is discarded), then the draws follow the source order: market cap,
revenue ratio (range depending on the drawn market cap), net margin, P/E,
ROE, debt-to-equity, current ratio, operating margin, gross margin, and
the free-cash-flow multiplier.  The `filingDate`, `quarter` and
`lastUpdated` fields of the return dict are read off `datetime.now()`,
passed here as the `now` argument. -/
def generate_mock_sec_data {S : Type} (R : RandomModel S)
    (md5_hash : String → ℕ) (ticker : String) (now : DateTime) (_s0 : S) :
    MockSECData × S :=
  let t := ticker.toUpper
  let seed_value := md5_hash t
  let s := R.seed seed_value
  let info := mock_sector_info R seed_value t s
  let sector := info.1.1
  let capR := sector_cap_range sector
  let u1 := R.uniform capR.1 capR.2 info.2
  let market_cap_b := u1.1
  let u2 := if 100 < market_cap_b then R.uniform (15/100) (35/100) u1.2
            else R.uniform (25/100) (50/100) u1.2
  let revenue_b := market_cap_b * u2.1
  let mR := margin_range sector
  let u3 := R.uniform mR.1 mR.2 u2.2
  let net_income_b := revenue_b * u3.1
  let pR := pe_range sector
  let u4 := R.uniform pR.1 pR.2 u3.2
  let rR := roe_range sector
  let u5 := R.uniform rR.1 rR.2 u4.2
  let u6 := R.uniform (3/10) (12/10) u5.2
  let u7 := R.uniform 1 (25/10) u6.2
  let u8 := R.uniform 15 35 u7.2
  let u9 := R.uniform 25 60 u8.2
  let u10 := R.uniform (11/10) (15/10) u9.2
  ({ symbol := t, name := info.1.2.2, sector := sector, industry := info.1.2.1,
     market_cap := market_cap_b, revenue := revenue_b, net_income := net_income_b,
     pe_ratio := u4.1, roe := u5.1, debt_to_equity := u6.1, current_ratio := u7.1,
     operating_margin := u8.1, gross_margin := u9.1,
     free_cash_flow := net_income_b * u10.1,
     filing_date := format_filing_date now, quarter := format_quarter now,
     last_updated := now.iso }, u10.2)

/-- A concrete pseudo-random implementation for evaluating the generator:
`uniform` returns the lower bound of its range. -/
def demo_random : RandomModel ℕ :=
  { seed := fun n => n,
    uniform := fun a _ s => (a, s + 1),
    choice := fun l s => (l.headD "", s + 1) }

def demo_hash : String → ℕ := fun _ => 0

/-- The clock reading of a first call. -/
def t_first : DateTime :=
  { year := 2026, month := 10, day := 12, iso := "2026-10-12T09:00:00.000001" }

/-- The clock reading of an immediately following second call: same date,
one microsecond later, so a different `isoformat()` string. -/
def t_second : DateTime :=
  { year := 2026, month := 10, day := 12, iso := "2026-10-12T09:00:00.000002" }

/-- C9 counterexample: two successive calls with the same ticker do *not*
produce identical output in all fields — the second call (continuing from
the state the first call left, one microsecond later) differs in its
`datetime.now()`-derived `lastUpdated` field. -/
theorem C9_last_updated_differs_cex :
    (generate_mock_sec_data demo_random demo_hash "AAPL" t_first 0).1 ≠
      (generate_mock_sec_data demo_random demo_hash "AAPL" t_second
        ((generate_mock_sec_data demo_random demo_hash "AAPL" t_first 0).2)).1 :=
  fun h => absurd (congrArg MockSECData.last_updated h) (by decide)

/-- C9 (amended): the mock SEC generator is deterministic in the ticker
and the wall clock — its output does not depend on the incoming
pseudo-random state (which it overwrites by seeding from the hash of the
uppercased ticker before any draw), so two calls with the same ticker
return identical output in every field except the `datetime.now()`-derived
`filingDate`, `quarter` and `lastUpdated`, which depend only on the clock
reading of the call; at equal clock readings the outputs are identical,
also across successive calls. -/
theorem C9_mock_sec_deterministic_amended {S : Type} (R : RandomModel S)
    (md5_hash : String → ℕ) (ticker : String) (t t1 t2 : DateTime) (sA sB : S) :
    (generate_mock_sec_data R md5_hash ticker t sA).1 =
        (generate_mock_sec_data R md5_hash ticker t sB).1 ∧
      (generate_mock_sec_data R md5_hash ticker t2 sB).1 =
        { (generate_mock_sec_data R md5_hash ticker t1 sA).1 with
          filing_date := format_filing_date t2, quarter := format_quarter t2,
          last_updated := t2.iso } ∧
      (generate_mock_sec_data R md5_hash ticker t
          ((generate_mock_sec_data R md5_hash ticker t sA).2)).1 =
        (generate_mock_sec_data R md5_hash ticker t sA).1 :=
  ⟨rfl, rfl, rfl⟩

end FinDocGPT
